import Mathlib

/-!
# Verification of the Caster PDF bot (src/Bot.py)

A shallow embedding of the session logic of `src/Bot.py`: the helper
`cleanup`, the filename sanitizer, the page-split selection loop, the
multi-backend Word→PDF and compression control flow, the subprocess
invocations, and the aiogram finite-state-machine handlers for merge,
watermark and navigation.  File-system state is modelled as a finite set of
paths; every definition is translated from the source file, with line
references in the doc comments.
-/

namespace Caster

/-! ## File-system model and the `cleanup` helper (Bot.py lines 136-142) -/

/-- A model of the on-disk state visible to the bot: `present` is the set of
paths that exist, `failing` the set of paths on which `os.remove` raises
(permission error, race, ...). -/
structure FS where
  present : Finset String
  failing : Finset String
deriving DecidableEq

/-- `os.remove p`: raises when `p` is in the failing set, otherwise removes
`p` from the file system. -/
def osRemove (fs : FS) (p : String) : Except String FS :=
  if p ∈ fs.failing then Except.error "OSError"
  else Except.ok { fs with present := fs.present.erase p }

/-- One iteration of the loop in `cleanup` (Bot.py lines 137-142):
`try: if p and os.path.exists(p): os.remove(p) except Exception: pass`. -/
def cleanupStep (fs : FS) (p : String) : FS :=
  if p ≠ "" ∧ p ∈ fs.present then
    match osRemove fs p with
    | Except.ok fs2 => fs2
    | Except.error _ => fs
  else fs

/-- `cleanup(paths)` (Bot.py lines 136-142): best-effort removal of every
path in the list, exceptions swallowed per path. -/
def cleanup (fs : FS) (paths : List String) : FS :=
  paths.foldl cleanupStep fs

theorem cleanupStep_failing (fs : FS) (p : String) :
    (cleanupStep fs p).failing = fs.failing := by
  unfold cleanupStep osRemove
  by_cases h1 : p ≠ "" ∧ p ∈ fs.present <;> by_cases h2 : p ∈ fs.failing <;>
    simp [h1, h2]

theorem cleanup_failing (fs : FS) (ps : List String) :
    (cleanup fs ps).failing = fs.failing := by
  induction ps generalizing fs with
  | nil => rfl
  | cons p ps ih => simp [cleanup, List.foldl_cons] at ih ⊢
                    rw [ih, cleanupStep_failing]

/-- After `cleanup` has processed `p`, the path is settled: gone, or empty,
or undeletable. -/
def Settled (fs : FS) (p : String) : Prop :=
  p ∉ fs.present ∨ p = "" ∨ p ∈ fs.failing

theorem cleanupStep_present_subset (fs : FS) (p q : String)
    (h : q ∈ (cleanupStep fs p).present) : q ∈ fs.present := by
  unfold cleanupStep osRemove at h
  by_cases h1 : p ≠ "" ∧ p ∈ fs.present <;> by_cases h2 : p ∈ fs.failing <;>
    simp [h1, h2] at h <;> first | exact h | exact h.2

theorem settled_cleanupStep_self (fs : FS) (p : String) :
    Settled (cleanupStep fs p) p := by
  unfold Settled cleanupStep osRemove
  by_cases h1 : p ≠ "" ∧ p ∈ fs.present <;> by_cases h2 : p ∈ fs.failing <;>
    simp [h1, h2]
  all_goals push_neg at h1
  all_goals tauto

theorem settled_mono (fs : FS) (p q : String) (h : Settled fs p) :
    Settled (cleanupStep fs q) p := by
  rcases h with h | h | h
  · exact Or.inl (fun hc => h (cleanupStep_present_subset fs q p hc))
  · exact Or.inr (Or.inl h)
  · exact Or.inr (Or.inr (by rw [cleanupStep_failing]; exact h))

theorem settled_cleanup (fs : FS) (ps : List String) (p : String)
    (h : Settled fs p) : Settled (cleanup fs ps) p := by
  induction ps generalizing fs with
  | nil => exact h
  | cons q ps ih => exact ih (cleanupStep fs q) (settled_mono fs p q h)

theorem settled_of_mem_cleanup (fs : FS) (ps : List String) (p : String)
    (hp : p ∈ ps) : Settled (cleanup fs ps) p := by
  induction ps generalizing fs with
  | nil => cases hp
  | cons q ps ih =>
    rcases List.mem_cons.mp hp with rfl | hmem
    · exact settled_cleanup (cleanupStep fs p) ps p
        (settled_cleanupStep_self fs p)
    · exact ih (cleanupStep fs q) hmem

theorem cleanupStep_of_settled (fs : FS) (p : String) (h : Settled fs p) :
    cleanupStep fs p = fs := by
  unfold cleanupStep osRemove
  rcases h with h | h | h
  · simp [h]
  · simp [h]
  · by_cases h1 : p ≠ "" ∧ p ∈ fs.present <;> simp [h1, h]

theorem cleanup_of_settled (fs : FS) (ps : List String)
    (h : ∀ p ∈ ps, Settled fs p) : cleanup fs ps = fs := by
  induction ps with
  | nil => rfl
  | cons q ps ih =>
    have hq : cleanupStep fs q = fs := cleanupStep_of_settled fs q (h q (by simp))
    show cleanup (cleanupStep fs q) ps = fs
    rw [hq]
    exact ih (fun p hp => h p (List.mem_cons_of_mem q hp))

/-- **C6.** `cleanup` (Bot.py lines 136-142) releases handles as the spec
says: a nonempty path whose deletion does not fail is gone afterwards even
when other paths in the batch fail (a failed delete never aborts the rest),
and the whole cleanup is idempotent — running it a second time over the same
paths changes nothing, so releasing twice, or releasing a path whose file
was never created, is safe; by construction it never raises (it is a total
function). -/
theorem cleanup_release_spec (fs : FS) (ps : List String) (p : String)
    (hp : p ∈ ps) (hne : p ≠ "") (hf : p ∉ fs.failing) :
    p ∉ (cleanup fs ps).present ∧ cleanup (cleanup fs ps) ps = cleanup fs ps := by
  constructor
  · rcases settled_of_mem_cleanup fs ps p hp with h | h | h
    · exact h
    · exact absurd h hne
    · rw [cleanup_failing] at h; exact absurd h hf
  · exact cleanup_of_settled _ ps (fun q hq => settled_of_mem_cleanup fs ps q hq)

/-- Witness for C6 at a concrete file system: cleaning `["a", "b"]` where
removing `"b"` fails still removes `"a"`, and a second pass is a no-op. -/
theorem cleanup_release_spec_witness :
    "a" ∉ (cleanup ⟨{"a", "b"}, {"b"}⟩ ["a", "b"]).present ∧
      cleanup (cleanup ⟨{"a", "b"}, {"b"}⟩ ["a", "b"]) ["a", "b"] =
        cleanup ⟨{"a", "b"}, {"b"}⟩ ["a", "b"] :=
  cleanup_release_spec ⟨{"a", "b"}, {"b"}⟩ ["a", "b"] "a" (by decide) (by decide)
    (by decide)

/-! ## Outbound messages -/

/-- An outbound instruction to the transport: a document sent with a caption
(`message.answer_document`) or a plain text message (`message.answer`). -/
inductive OutMsg
  | sendDoc (caption : String)
  | text (s : String)
deriving DecidableEq, Repr

/-! ## Split: page parsing and selection (Bot.py lines 541-597) -/

/-- Python `range(a, b)` over integers, as the list `[a, a+1, ..., b-1]`. -/
def pyRange (a b : Int) : List Int :=
  (List.range (b - a).toNat).map (fun i => a + (i : Int))

/-- Python `str.split(sep)` for a one-character separator: splits into the
(always nonempty) list of chunks between occurrences of `sep`. -/
def splitOnChar (sep : Char) : List Char → List (List Char)
  | [] => [[]]
  | c :: cs =>
    if c = sep then [] :: splitOnChar sep cs
    else
      match splitOnChar sep cs with
      | [] => [[c]]
      | g :: gs => (c :: g) :: gs

def digitsAux : List Char → Nat → Option Nat
  | [], acc => some acc
  | c :: cs, acc =>
    if c.isDigit then digitsAux cs (acc * 10 + (c.toNat - 48)) else none

/-- Python `int(s)` on a string of digits with an optional sign; an empty or
non-numeric string raises (returns `none`).  (The whitespace and underscore
tolerance of Python's `int` is not modelled; it is irrelevant here.) -/
def pyInt (s : List Char) : Option Int :=
  match s with
  | [] => none
  | '-' :: rest =>
    match rest with
    | [] => none
    | _ => (digitsAux rest 0).map (fun n => -(n : Int))
  | '+' :: rest =>
    match rest with
    | [] => none
    | _ => (digitsAux rest 0).map (fun n => (n : Int))
  | _ => (digitsAux s 0).map (fun n => (n : Int))

/-- One comma-separated part of the page string (Bot.py lines 555-561):
a part containing a dash is split at the first dash into `a-b` and
contributes `range(a-1, b)`; otherwise the part is a single integer `n`
contributing `[n-1]`.  A failed `int()` aborts the whole parse. -/
def parsePart (part : List Char) : Option (List Int) :=
  if part.contains '-' then
    let a := part.takeWhile (fun c => c ≠ '-')
    let b := part.drop (a.length + 1)
    match pyInt a, pyInt b with
    | some x, some y => some (pyRange (x - 1) y)
    | _, _ => none
  else
    match pyInt part with
    | some x => some [x - 1]
    | none => none

/-- The page-string parser of `split_do` (Bot.py lines 553-561): requested
page numbers are converted to 0-based indices, in the order written. -/
def parsePages (text : String) : Option (List Int) :=
  ((splitOnChar ',' text.data).mapM parsePart).map List.flatten

example : parsePages "1-3,5" = some [0, 1, 2, 4] := by decide

example : parsePages "2,2,1" = some [1, 1, 0] := by decide

example : parsePages "1-x" = none := by decide

/-- The "Один файл" selection loop of `split_do` (Bot.py lines 581-584):
each requested 0-based index `p` with `0 ≤ p < total` is inserted into the
output document in requested order; out-of-range indices are skipped. -/
def splitSelect (pages : List Int) (total : Nat) : List Int :=
  pages.foldl
    (fun acc p => if 0 ≤ p ∧ p < (total : Int) then acc ++ [p] else acc) []

/-- The "Отдельные файлы" loop of `split_do` (Bot.py lines 570-579): one
document with caption `Страница p+1` is sent per in-range requested index;
an out-of-range index produces no output at all (no error message). -/
def splitSeparateMsgs (pages : List Int) (total : Nat) : List OutMsg :=
  pages.foldl
    (fun acc p =>
      if 0 ≤ p ∧ p < (total : Int) then
        acc ++ [OutMsg.sendDoc ("Страница " ++ toString (p + 1))]
      else acc) []

theorem foldl_cond_append {α β : Type} (c : α → Prop) [DecidablePred c]
    (g : α → β) (l : List α) (acc : List β) :
    l.foldl (fun acc p => if c p then acc ++ [g p] else acc) acc =
      acc ++ (l.filter (fun p => decide (c p))).map g := by
  induction l generalizing acc with
  | nil => simp
  | cons p l ih =>
    by_cases hp : c p <;>
      simp [List.foldl_cons, List.filter_cons, hp, ih, List.append_assoc]

/-- **C9.** In `split_do` (Bot.py lines 541-597) every requested page index
outside `0 ≤ p < total` (i.e. every requested 1-based page number outside
`1..total`) is silently skipped — the emitted message list contains no error
entry for it — and the produced output is exactly the in-range requested
indices in requested order, duplicates included: both split modes compute an
order- and multiplicity-preserving filter of the requested list. -/
theorem split_select_spec (pages : List Int) (total : Nat) :
    splitSelect pages total =
        pages.filter (fun p => decide (0 ≤ p ∧ p < (total : Int))) ∧
      splitSeparateMsgs pages total =
        (pages.filter (fun p => decide (0 ≤ p ∧ p < (total : Int)))).map
          (fun p => OutMsg.sendDoc ("Страница " ++ toString (p + 1))) := by
  constructor
  · simpa using
      foldl_cond_append (fun p => 0 ≤ p ∧ p < (total : Int)) id pages []
  · simpa using
      foldl_cond_append (fun p => 0 ≤ p ∧ p < (total : Int))
        (fun p => OutMsg.sendDoc ("Страница " ++ toString (p + 1))) pages []

example :
    splitSelect [0, 7, 1, 1, -1] 3 = [0, 1, 1] := by decide

/-! ## Filename sanitizing and download paths
(Bot.py lines 36, 132-133, 195-198, 696-699) -/

/-- `FILES_DIR = "files"` (Bot.py line 36). -/
def FILES_DIR : List Char := "files".data

/-- `os.path.join(d, x)` for the relative components used here. -/
def pyJoin (d x : List Char) : List Char := d ++ "/".data ++ x

/-- The characters besides alphanumerics that `sanitize_filename` keeps:
`" .-_()"` (Bot.py line 133). -/
def allowedExtra : List Char := [' ', '.', '-', '_', '(', ')']

/-- `os.path.basename`: the substring after the last path separator. -/
def pyBasename (name : List Char) : List Char :=
  ((splitOnChar '/' name).getLast?).getD []

/-- `sanitize_filename` (Bot.py lines 132-133): every character of the
basename that is neither alphanumeric nor in `" .-_()"` becomes an
underscore.  (`Char.isAlphanum` is the ASCII reading of Python's
Unicode-aware `str.isalnum`.) -/
def sanitize_filename (name : List Char) : List Char :=
  (pyBasename name).map
    (fun c => if c.isAlphanum || allowedExtra.contains c then c else '_')

/-- The claim's sanitization property for a path component. -/
def SanitizedComponent (s : List Char) : Prop :=
  ∀ c ∈ s, c.isAlphanum ∨ c ∈ allowedExtra

instance (s : List Char) : Decidable (SanitizedComponent s) := by
  unfold SanitizedComponent; infer_instance

theorem sanitize_char_sound (d : Char) :
    (if d.isAlphanum || allowedExtra.contains d then d else '_').isAlphanum = true ∨
      (if d.isAlphanum || allowedExtra.contains d then d else '_') ∈ allowedExtra := by
  by_cases h : (d.isAlphanum || allowedExtra.contains d) = true
  · rw [if_pos h]
    rcases Bool.or_eq_true_iff.mp h with h1 | h1
    · exact Or.inl h1
    · exact Or.inr (List.mem_of_elem_eq_true h1)
  · rw [if_neg h]
    exact Or.inr (by decide)

theorem sanitize_filename_sound (name : List Char) :
    SanitizedComponent (sanitize_filename name) := by
  intro c hc
  unfold sanitize_filename at hc
  rcases List.mem_map.mp hc with ⟨d, _, hd⟩
  rw [← hd]
  exact sanitize_char_sound d

/-- The filename used by `watermark_receive` (Bot.py line 698):
`message.document.file_name or f"{uuid4()}.pdf"` — `sanitize_filename` is
NOT applied. -/
def watermark_receive_fname (u : List Char)
    (file_name : Option (List Char)) : List Char :=
  file_name.getD (u ++ ".pdf".data)

/-- The stored download path of `watermark_receive` (Bot.py line 699):
`os.path.join(FILES_DIR, f"watermark_{uuid4()}_{fname}")`. -/
def watermark_receive_path (u1 u2 : List Char)
    (file_name : Option (List Char)) : List Char :=
  pyJoin FILES_DIR
    ("watermark_".data ++ u2 ++ "_".data ++ watermark_receive_fname u1 file_name)

/-- The filename used by `pdf_to_jpg_file` (Bot.py line 197), representative
of every other receiving handler: `sanitize_filename` IS applied. -/
def pdf_to_jpg_fname (u : List Char)
    (file_name : Option (List Char)) : List Char :=
  sanitize_filename (file_name.getD (u ++ ".pdf".data))

/-- The stored download path of `pdf_to_jpg_file` (Bot.py line 198). -/
def pdf_to_jpg_input_path (u1 u2 : List Char)
    (file_name : Option (List Char)) : List Char :=
  pyJoin FILES_DIR ("pdf2jpg_".data ++ u2 ++ "_".data ++ pdf_to_jpg_fname u1 file_name)

/-- **C8.** The implicit sanitization claim fails in `watermark_receive`
(Bot.py line 698): the user-controlled filename `"../../etc/passwd"` is
stored verbatim — the resulting path contains unsanitized `/` and `..`
components and normalizes to a location outside the `files` working
directory — whereas a sanitizing handler (`pdf_to_jpg_file`, line 197)
reduces the same input to the safe component `"passwd"`. -/
theorem watermark_receive_path_escapes :
    watermark_receive_path "u".data "v".data (some "../../etc/passwd".data) =
        "files/watermark_v_../../etc/passwd".data ∧
      ¬ SanitizedComponent
          (watermark_receive_fname "u".data (some "../../etc/passwd".data)) ∧
      '/' ∈ watermark_receive_fname "u".data (some "../../etc/passwd".data) ∧
      pdf_to_jpg_fname "u".data (some "../../etc/passwd".data) = "passwd".data ∧
      SanitizedComponent (pdf_to_jpg_fname "u".data (some "../../etc/passwd".data)) := by
  exact ⟨by decide, by decide, by decide, by decide, by decide⟩

/-! ## Subprocess invocations: no timeout, run inline
(Bot.py lines 347-357, 619-635) -/

/-- One `subprocess.run` invocation as the program constructs it: the
argument vector, the `timeout=` keyword (absent in every call the program
makes, hence `Option`), and `check=`. -/
structure SubprocessCall where
  argv : List String
  timeLimit : Option Nat
  check : Bool
deriving DecidableEq, Repr

/-- The LibreOffice command of `soffice_convert_to_pdf` (Bot.py lines
352-354): `subprocess.run(cmd, check=True, ...)` with no `timeout=`. -/
def sofficeCmd (soffice outDir inputPath : String) : SubprocessCall :=
  { argv := [soffice, "--headless", "--convert-to", "pdf", "--outdir",
             outDir, inputPath],
    timeLimit := none, check := true }

/-- The Ghostscript command of `compress_handler` (Bot.py lines 621-627):
`subprocess.run(cmd, check=True)` with no `timeout=`. -/
def gsCmd (gsBin outputPath inputPath : String) : SubprocessCall :=
  { argv := [gsBin, "-sDEVICE=pdfwrite", "-dCompatibilityLevel=1.4",
             "-dPDFSETTINGS=/ebook", "-dNOPAUSE", "-dBATCH", "-dQUIET",
             "-sOutputFile=" ++ outputPath, inputPath],
    timeLimit := none, check := true }

/-- Where a backend invocation is executed, as observed in a handler's
effect trace: synchronously inline in the handler body, or submitted to an
execution pool.  `src/Bot.py` creates no pool of any kind, so only the
inline form ever occurs. -/
inductive ExecEffect
  | runInline (c : SubprocessCall)
  | submitToPool (c : SubprocessCall)
  | message (m : OutMsg)
deriving DecidableEq, Repr

/-- Effect trace of `soffice_convert_to_pdf` (Bot.py lines 347-357): when
`find_bin` locates a soffice binary, `subprocess.run` is called directly in
the function body — inline on the event-handling path. -/
def soffice_convert_effects (found : Bool)
    (bin outDir inputPath : String) : List ExecEffect :=
  if found then [ExecEffect.runInline (sofficeCmd bin outDir inputPath)] else []

/-- The pool submissions contained in an effect trace. -/
def pooledCalls (es : List ExecEffect) : List SubprocessCall :=
  es.foldr
    (fun e acc => match e with
      | ExecEffect.submitToPool c => c :: acc
      | _ => acc) []

/-- The inline backend invocations contained in an effect trace. -/
def inlineCalls (es : List ExecEffect) : List SubprocessCall :=
  es.foldr
    (fun e acc => match e with
      | ExecEffect.runInline c => c :: acc
      | _ => acc) []

/-- The configuration keys the program reads from its environment: only the
transport token (Bot.py line 31).  No concurrency limit, job timeout, size
limit, or session timeout is configurable. -/
def envKeysRead : List String := ["BOT_TOKEN"]

/-- **C3 (counterexample).** The claim that heavy backend invocations
"never run inline on the event-handling path" is false: with a soffice
binary installed, `soffice_convert_to_pdf` (Bot.py lines 347-357) runs
`subprocess.run` inline in the handler, and nothing is ever submitted to a
pool. -/
theorem soffice_runs_inline :
    ExecEffect.runInline (sofficeCmd "soffice" "files" "files/in.docx") ∈
        soffice_convert_effects true "soffice" "files" "files/in.docx" ∧
      pooledCalls (soffice_convert_effects true "soffice" "files" "files/in.docx")
        = [] := by
  constructor
  · simp [soffice_convert_effects]
  · rfl

/-- **C3 (amended).** Backend invocations execute inline: for every
argument choice, the effect trace of `soffice_convert_to_pdf` contains
exactly the one inline `subprocess.run` call (when a binary is found, none
otherwise) and no pool submission; the program defines no execution pool
and reads no concurrency-limit configuration — its only configuration key
is the transport token. -/
theorem backend_invocations_inline (found : Bool) (bin outDir inputPath : String) :
    inlineCalls (soffice_convert_effects found bin outDir inputPath) =
        (if found then [sofficeCmd bin outDir inputPath] else []) ∧
      pooledCalls (soffice_convert_effects found bin outDir inputPath) = [] ∧
      envKeysRead = ["BOT_TOKEN"] := by
  cases found <;> exact ⟨rfl, rfl, rfl⟩

/-- **C4 (counterexample).** The claim that every running job is subject to
a per-job timeout is false: the concrete `subprocess.run` invocations the
program constructs — the soffice conversion and the Ghostscript compression
— carry no `timeout=` at all, so no backend invocation is ever cancelled on
a deadline. -/
theorem subprocess_calls_have_no_timeout :
    (sofficeCmd "soffice" "files" "files/in.docx").timeLimit = none ∧
      (gsCmd "gs" "files/out.pdf" "files/in.pdf").timeLimit = none := ⟨rfl, rfl⟩

/-- **C4 (amended).** No per-job timeout exists: every `subprocess.run`
invocation the program constructs, for all argument values, has
`timeLimit = none`, hence no deadline, no termination signal on expiry, and
no distinct `Timeout` outcome. -/
theorem subprocess_never_timed (soffice outDir inPath gsBin outPath inPdf : String) :
    (sofficeCmd soffice outDir inPath).timeLimit = none ∧
      (gsCmd gsBin outPath inPdf).timeLimit = none := ⟨rfl, rfl⟩

/-! ## Word → PDF: ordered backend attempts (Bot.py lines 347-398) -/

/-- The environment a Word→PDF conversion runs in: whether `find_bin`
locates a soffice binary, whether the soffice subprocess raises (caught
inside `soffice_convert_to_pdf`, which then returns False), whether the
expected `out_pdf` exists after the soffice run, whether
`from docx2pdf import convert` succeeds, whether `convert` raises (caught
by the bare `except: pass`), and whether `out_pdf` exists afterwards. -/
structure ConvEnv where
  sofficeFound : Bool
  sofficeRunFails : Bool
  sofficeOutExists : Bool
  docx2pdfInstalled : Bool
  docx2pdfFails : Bool
  docx2pdfOutExists : Bool
deriving DecidableEq, Repr, Fintype

/-- `soffice_convert_to_pdf` (Bot.py lines 347-357): False when no binary
is found or the subprocess raises; True otherwise.  No failure reason is
reported to anyone. -/
def soffice_convert_to_pdf (env : ConvEnv) : Bool :=
  env.sofficeFound && !env.sofficeRunFails

inductive BackendAttempt
  | soffice
  | docx2pdf
deriving DecidableEq, Repr

/-- The single generic failure message of `word_to_pdf_file`
(Bot.py line 393). -/
def wordGenericError : String :=
  "Не удалось конвертировать: установите LibreOffice (soffice) или используйте Windows+MS Word (docx2pdf)."

/-- `word_to_pdf_file` (Bot.py lines 366-398): try soffice; if it reports
success and `out_pdf` exists, deliver and return; otherwise silently fall
through to docx2pdf inside `try/except: pass`; if its output exists,
deliver and return; otherwise emit the single generic error.  Returns the
ordered list of backends attempted and the messages emitted. -/
def word_to_pdf_file (env : ConvEnv) : List BackendAttempt × List OutMsg :=
  if soffice_convert_to_pdf env && env.sofficeOutExists then
    ([BackendAttempt.soffice], [OutMsg.sendDoc "Готово — Word → PDF"])
  else if env.docx2pdfInstalled && !env.docx2pdfFails && env.docx2pdfOutExists then
    ([BackendAttempt.soffice, BackendAttempt.docx2pdf],
      [OutMsg.sendDoc "Готово — Word → PDF"])
  else
    ([BackendAttempt.soffice, BackendAttempt.docx2pdf],
      [OutMsg.text wordGenericError])

/-- **C7.** In `word_to_pdf_file` (Bot.py lines 366-398) the backends are
attempted in the fixed order soffice, then docx2pdf (docx2pdf is skipped
exactly when soffice delivered); every message list is either the one
success delivery or the single fixed generic error — an individual
attempt's failure reason is never emitted — and the generic error appears
precisely when both attempts fail to deliver. -/
theorem word_to_pdf_backend_sequence (env : ConvEnv) :
    ((word_to_pdf_file env).1 = [BackendAttempt.soffice] ∨
        (word_to_pdf_file env).1 = [BackendAttempt.soffice, BackendAttempt.docx2pdf]) ∧
      ((word_to_pdf_file env).1 = [BackendAttempt.soffice] →
        (word_to_pdf_file env).2 = [OutMsg.sendDoc "Готово — Word → PDF"]) ∧
      ((word_to_pdf_file env).2 = [OutMsg.sendDoc "Готово — Word → PDF"] ∨
        (word_to_pdf_file env).2 = [OutMsg.text wordGenericError]) ∧
      ((word_to_pdf_file env).2 = [OutMsg.text wordGenericError] ↔
        ¬((soffice_convert_to_pdf env && env.sofficeOutExists) = true ∨
          (env.docx2pdfInstalled && !env.docx2pdfFails && env.docx2pdfOutExists) = true)) := by
  unfold word_to_pdf_file soffice_convert_to_pdf
  rcases env with ⟨sf, sr, so, di, df, do_⟩
  cases sf <;> cases sr <;> cases so <;> cases di <;> cases df <;> cases do_ <;>
    simp

/-- Witness for C7 at a concrete environment: with soffice installed,
working, and producing output, the document is delivered after the soffice
attempt alone. -/
theorem word_to_pdf_backend_sequence_witness :
    (word_to_pdf_file ⟨true, false, true, false, false, false⟩).2 =
      [OutMsg.sendDoc "Готово — Word → PDF"] :=
  (word_to_pdf_backend_sequence ⟨true, false, true, false, false, false⟩).2.1 rfl

/-! ## Compression: multi-backend size policy (Bot.py lines 608-684) -/

/-- The environment of one compression run.  `gsRunFails` covers both a
raising `subprocess.run` and a missing output file (the subsequent
`os.path.getsize` raising) — both are caught by the same `except: pass`;
`pikepdfFails` likewise covers a raising `pikepdf.open`/`save` or missing
output. -/
structure CompressEnv where
  gsFound : Bool
  gsRunFails : Bool
  gsOutSize : Nat
  pikepdfFails : Bool
  pikepdfOutSize : Nat
  rasterFails : Bool
  rasterOutSize : Nat
  origSize : Nat
deriving DecidableEq, Repr

inductive CBackend
  | gs
  | pikepdf
  | raster
deriving DecidableEq, Repr

inductive CompressOutcome
  | delivered (backend : CBackend) (newSize : Nat)
  | failed
deriving DecidableEq, Repr

/-- `compress_handler` (Bot.py lines 608-684): a successful Ghostscript
output is delivered with no size check; the pikepdf output is delivered
only if strictly smaller than the input (otherwise it is removed and the
code falls through); a successful rasterization output is again delivered
with no size check; only when rasterization also raises is the error
message sent. -/
def compress_handler (env : CompressEnv) : CompressOutcome :=
  if env.gsFound = true ∧ env.gsRunFails = false then
    CompressOutcome.delivered CBackend.gs env.gsOutSize
  else if env.pikepdfFails = false ∧ env.pikepdfOutSize < env.origSize then
    CompressOutcome.delivered CBackend.pikepdf env.pikepdfOutSize
  else if env.rasterFails = false then
    CompressOutcome.delivered CBackend.raster env.rasterOutSize
  else
    CompressOutcome.failed

/-- **C10.** `compress_handler` (Bot.py lines 608-684) delivers a
pikepdf-produced output only when it is strictly smaller than the input,
whereas a Ghostscript or rasterization result can be delivered even when it
is at least as large as the input — so compression may return a file larger
than the original. -/
theorem compress_size_policy :
    (∀ env s, compress_handler env = CompressOutcome.delivered CBackend.pikepdf s →
        s < env.origSize) ∧
      (∃ env s, compress_handler env = CompressOutcome.delivered CBackend.gs s ∧
        env.origSize ≤ s) ∧
      (∃ env s, compress_handler env = CompressOutcome.delivered CBackend.raster s ∧
        env.origSize ≤ s) := by
  refine ⟨?_, ⟨⟨true, false, 20, false, 0, false, 0, 5⟩, 20, by decide, by decide⟩,
    ⟨⟨false, false, 0, true, 0, false, 20, 5⟩, 20, by decide, by decide⟩⟩
  intro env s h
  unfold compress_handler at h
  split_ifs at h with h1 h2 h3 <;> simp_all

/-- Witness for C10 at a concrete environment: Ghostscript absent, pikepdf
succeeding with a smaller file — the theorem's size bound holds there. -/
theorem compress_size_policy_witness : (3 : Nat) < 10 :=
  compress_size_policy.1 ⟨false, false, 0, false, 3, false, 0, 10⟩ 3 (by decide)

/-! ## The aiogram session state machine
(Bot.py lines 40-67, 158-184, 455-497, 687-762) -/

/-- The aiogram FSM states the modelled handlers use; `idle` is the cleared
state (after `state.clear()`). -/
inductive BotState
  | idle
  | merge
  | watermark_file
  | watermark_text
deriving DecidableEq, Repr

/-- The FSM data-dict entries the modelled handlers use
(`state.update_data` / `state.get_data`): the collected merge inputs
(key `"files"`) and the watermark input (key `"wm_file"`).
`state.clear()` resets both. -/
structure SessionData where
  files : List String
  wm_file : Option String
deriving DecidableEq, Repr

def SessionData.empty : SessionData := ⟨[], none⟩

/-- One user session together with the contents of the files directory and
the outbound messages sent so far. -/
structure World where
  fsm : BotState
  data : SessionData
  disk : Finset String
  msgs : List OutMsg
deriving DecidableEq

/-- The initial world: cleared session, empty files directory. -/
def world0 : World := ⟨BotState.idle, SessionData.empty, ∅, []⟩

/-- Removal of a batch of paths with `os.remove` guarded by existence
checks and swallowed exceptions — the `cleanup` helper (and the equivalent
inline loop of the watermark handler) acting on a disk where no removal
fails. -/
def diskCleanup (disk : Finset String) (ps : List String) : Finset String :=
  (cleanup ⟨disk, ∅⟩ ps).present

/-- `go_back` (Bot.py lines 181-184), the explicit back/reset signal
`⬅ Назад`, matched in every state: `await state.clear()` plus one message.
Nothing is deleted from disk. -/
def go_back (w : World) : World :=
  { w with fsm := BotState.idle, data := SessionData.empty,
           msgs := w.msgs ++ [OutMsg.text "Возврат в главное меню."] }

/-- `merge_start` (Bot.py lines 455-459): enter the collecting state with an
empty collection. -/
def merge_start (w : World) : World :=
  { w with fsm := BotState.merge, data := { w.data with files := [] },
           msgs := w.msgs ++
             [OutMsg.text "Отправь PDF файлы по очереди. Когда готов — нажми ✅ Готово"] }

/-- `merge_collect` (Bot.py lines 462-472): a document arriving in the
merge state is downloaded to a fresh path and appended to the collection. -/
def merge_collect (w : World) (path fname : String) : World :=
  { w with data := { w.data with files := w.data.files ++ [path] },
           disk := insert path w.disk,
           msgs := w.msgs ++ [OutMsg.text ("Добавлен: " ++ fname)] }

/-- Whether the fitz merge raises, and the exception text if it does. -/
structure MergeEnv where
  mergeFails : Bool
  errText : String
deriving DecidableEq, Repr

/-- `merge_finish` (Bot.py lines 475-496), the `✅ Готово` signal in the
merge state.  Note the order in the source: `state.clear()` runs BEFORE the
`len(files) < 2` check, and the under-2 branch returns without any cleanup;
the merge branch writes `out_path`, sends it (or the error), and its
`finally` runs `cleanup(files + [out_path])`. -/
def merge_finish (env : MergeEnv) (w : World) (outPath : String) : World :=
  let files := w.data.files
  let w1 : World := { w with fsm := BotState.idle, data := SessionData.empty }
  if files.length < 2 then
    { w1 with msgs := w1.msgs ++ [OutMsg.text "Нужно минимум 2 файла."] }
  else
    let w2 : World :=
      if env.mergeFails then
        { w1 with msgs := w1.msgs ++
            [OutMsg.text ("Ошибка при объединении: " ++ env.errText)] }
      else
        { w1 with disk := insert outPath w1.disk,
                  msgs := w1.msgs ++ [OutMsg.sendDoc "Готово — Объединено"] }
    { w2 with disk := diskCleanup w2.disk (files ++ [outPath]) }

/-- **C1 (counterexample).** The back/reset signal does not release the
session's downloaded files: start a merge, collect one document, press
`⬅ Назад` — the session is back in `Idle`, yet the downloaded file is still
on disk, so the number of registered-but-unreleased handles at `Idle` is
not zero. -/
theorem go_back_leaks_downloaded_file :
    (go_back (merge_collect (merge_start world0) "files/merge_u_a.pdf" "a.pdf")).fsm
        = BotState.idle ∧
      "files/merge_u_a.pdf" ∈
        (go_back (merge_collect (merge_start world0) "files/merge_u_a.pdf" "a.pdf")).disk := by
  exact ⟨rfl, by decide⟩

/-- **C1 (amended).** The back/reset signal (`go_back`, Bot.py lines
181-184) clears the session state and bookkeeping and transitions to
`Idle`, but deletes nothing: the disk is left exactly as it was, so files
downloaded for the session are released only by the individual operation
handlers' own completion paths, not by back/reset. -/
theorem go_back_spec (w : World) :
    (go_back w).fsm = BotState.idle ∧ (go_back w).data = SessionData.empty ∧
      (go_back w).disk = w.disk ∧
      (go_back w).msgs = w.msgs ++ [OutMsg.text "Возврат в главное меню."] :=
  ⟨rfl, rfl, rfl, rfl⟩

/-- A merge session with exactly one collected file, for the C2
counterexample. -/
def mergeOneFileWorld : World :=
  merge_collect (merge_start world0) "files/merge_u_a.pdf" "a.pdf"

/-- **C2 (counterexample).** Finishing a merge with one collected file does
NOT leave the session in the collecting state with its file retained:
`merge_finish` (Bot.py line 479) runs `state.clear()` before the
`len(files) < 2` check, so the session ends up in `Idle` with an empty
collection (while the downloaded file stays on disk, undeleted). -/
theorem merge_finish_single_file_resets :
    (merge_finish ⟨false, ""⟩ mergeOneFileWorld "files/merged_o.pdf").fsm
        = BotState.idle ∧
      BotState.idle ≠ BotState.merge ∧
      (merge_finish ⟨false, ""⟩ mergeOneFileWorld "files/merged_o.pdf").data.files
        = [] ∧
      "files/merge_u_a.pdf" ∈
        (merge_finish ⟨false, ""⟩ mergeOneFileWorld "files/merged_o.pdf").disk := by
  refine ⟨by decide, by decide, by decide, by decide⟩

/-- **C2 (amended).** `merge_finish` (Bot.py lines 475-496): with fewer
than 2 collected files the finish request is rejected with the
`Нужно минимум 2 файла.` message but the session is cleared to `Idle` —
the collected-file list is dropped, not retained, and the downloaded files
stay on disk; with 2 or more files the merge executes (here: the
non-failing case), the result is delivered and the inputs and output are
cleaned up. -/
theorem merge_finish_spec (env : MergeEnv) (w : World) (outPath : String) :
    (merge_finish env w outPath).fsm = BotState.idle ∧
      (merge_finish env w outPath).data = SessionData.empty ∧
      (w.data.files.length < 2 →
        (merge_finish env w outPath).msgs =
            w.msgs ++ [OutMsg.text "Нужно минимум 2 файла."] ∧
          (merge_finish env w outPath).disk = w.disk) ∧
      (2 ≤ w.data.files.length → env.mergeFails = false →
        (merge_finish env w outPath).msgs =
            w.msgs ++ [OutMsg.sendDoc "Готово — Объединено"] ∧
          (merge_finish env w outPath).disk =
            diskCleanup (insert outPath w.disk) (w.data.files ++ [outPath])) := by
  by_cases hlen : w.data.files.length < 2
  · refine ⟨by simp [merge_finish, hlen], by simp [merge_finish, hlen],
      fun _ => ⟨by simp [merge_finish, hlen], by simp [merge_finish, hlen]⟩,
      fun h2 _ => absurd hlen (by omega)⟩
  · refine ⟨?_, ?_, fun h => absurd h hlen, fun _ hfail => ?_⟩
    · cases henv : env.mergeFails <;> simp [merge_finish, hlen, henv]
    · cases henv : env.mergeFails <;> simp [merge_finish, hlen, henv]
    · simp [merge_finish, hlen, hfail]

/-- A merge session with two collected files, for the C2 witness. -/
def mergeTwoFilesWorld : World :=
  merge_collect (merge_collect (merge_start world0) "files/merge_u_a.pdf" "a.pdf")
    "files/merge_v_b.pdf" "b.pdf"

/-- Witness for C2 (amended) at a concrete session with two collected
files: the merge executes and the result is delivered. -/
theorem merge_finish_spec_witness :
    (merge_finish ⟨false, ""⟩ mergeTwoFilesWorld "files/merged_o.pdf").msgs =
      mergeTwoFilesWorld.msgs ++ [OutMsg.sendDoc "Готово — Объединено"] :=
  ((merge_finish_spec ⟨false, ""⟩ mergeTwoFilesWorld "files/merged_o.pdf").2.2.2
    (by decide) rfl).1

/-! ## Watermark: the two-step file-then-text flow (Bot.py lines 687-762) -/

/-- An inbound message as the handlers see it: `message.text` is present
for a text message and `None` for a document. -/
inductive Event
  | textMsg (s : String)
  | document (file_name : Option String)
deriving DecidableEq, Repr

/-- `watermark_receive` (Bot.py lines 696-704): download the PDF, remember
it under `wm_file`, move to the awaiting-text state. -/
def watermark_receive (w : World) (path : String) : World :=
  { w with fsm := BotState.watermark_text,
           data := { w.data with wm_file := some path },
           disk := insert path w.disk,
           msgs := w.msgs ++ [OutMsg.text "Отправь текст водяного знака (короткая фраза):"] }

/-- Whether the fitz/reportlab watermarking raises, and the exception text
if it does. -/
structure WmEnv where
  wmFails : Bool
  errText : String
deriving DecidableEq, Repr

/-- The result of running a handler: the new world, and whether an uncaught
exception escaped the handler (aiogram then logs it; the user gets no
message). -/
structure HandlerResult where
  world : World
  raised : Bool
deriving DecidableEq

/-- `watermark_text_handler` (Bot.py lines 708-762).  If `wm_file` is
missing or gone, reply `Файл не найден.` and clear.  Otherwise the source
runs `text = message.text.strip()` (line 717) BEFORE its try/finally: for a
document event `message.text` is `None`, so this raises `AttributeError`
out of the handler — no message is sent, no state is cleared, no file is
cleaned.  For a text event the watermark is rendered (or the exception
reported), the temp files are removed by the `finally` loop, and the state
is cleared. -/
def watermark_text_handler (env : WmEnv) (ev : Event) (w : World)
    (outPath wmTempPath : String) : HandlerResult :=
  match w.data.wm_file with
  | none =>
    ⟨{ w with fsm := BotState.idle, data := SessionData.empty,
              msgs := w.msgs ++ [OutMsg.text "Файл не найден."] }, false⟩
  | some path =>
    if path ∉ w.disk then
      ⟨{ w with fsm := BotState.idle, data := SessionData.empty,
                msgs := w.msgs ++ [OutMsg.text "Файл не найден."] }, false⟩
    else
      match ev with
      | Event.document _ => ⟨w, true⟩
      | Event.textMsg _ =>
        let w1 : World :=
          if env.wmFails then
            { w with msgs := w.msgs ++
                [OutMsg.text ("Ошибка при добавлении водяного знака: " ++ env.errText)] }
          else
            { w with disk := insert outPath (insert wmTempPath w.disk),
                     msgs := w.msgs ++ [OutMsg.sendDoc "Готово — водяной знак добавлен"] }
        ⟨{ w1 with fsm := BotState.idle, data := SessionData.empty,
                   disk := diskCleanup w1.disk [path, outPath, wmTempPath] }, false⟩

/-- A session awaiting the watermark text, its input file downloaded. -/
def wmAwaitingTextWorld : World :=
  watermark_receive { world0 with fsm := BotState.watermark_file } "files/wm_u_a.pdf"

/-- **C5.** A file arriving while the session awaits the watermark text is
NOT rejected with a user-visible message: `watermark_text_handler`
evaluated at a document event raises (`None.strip()`, Bot.py line 717),
emits no message at all, and leaves the world untouched — the state is
indeed unmutated, but the required user-visible rejection never happens
(and the handler crashes instead of handling the event). -/
theorem watermark_document_crashes_silently :
    (watermark_text_handler ⟨false, ""⟩ (Event.document (some "b.pdf"))
          wmAwaitingTextWorld "files/watermarked_o.pdf" "files/wm_temp_t.pdf").raised
        = true ∧
      (watermark_text_handler ⟨false, ""⟩ (Event.document (some "b.pdf"))
          wmAwaitingTextWorld "files/watermarked_o.pdf" "files/wm_temp_t.pdf").world
        = wmAwaitingTextWorld := by
  exact ⟨by decide, by decide⟩

end Caster
